import Mathlib

/-!
Shallow embedding of the autosplitter core of LiveSplit.PacmanWorldRePac
(src/lib.rs): the watcher abstraction, the per-tick update step and the
decision predicates (start, split, reset, is_loading, game_time), together
with proofs of the specified properties.

Unsigned machine integers (u32, u64) are modelled as Nat: the code only
compares and copies them, never performs arithmetic, so no overflow can
occur and the embedding is exact.
-/

namespace PacmanWorld

/-- A pair of the previous (old) and current polled values of a tracked
quantity, as held by a watcher after at least one update. -/
structure Pair (α : Type) where
  old : α
  current : α
deriving Repr, DecidableEq

/-- Did the value change this tick: old and current differ. -/
def Pair.changed {α : Type} [DecidableEq α] (p : Pair α) : Bool :=
  decide (p.old ≠ p.current)

/-- Did the value just transition to v this tick: old differs from v and
current equals v. -/
def Pair.changed_to {α : Type} [DecidableEq α] (p : Pair α) (v : α) : Bool :=
  decide (p.old ≠ v) && decide (p.current = v)

/-- Modelled from the spec: the external watcher abstraction (from the asr
runtime, not part of src/) wrapping one polled value. Before the first update
the pair is undefined. -/
structure Watcher (α : Type) where
  pair : Option (Pair α)
deriving Repr, DecidableEq

/-- Modelled from the spec: one infallible update of a watcher with a read
value. The first update seeds both old and current with the value; every
later update shifts current into old and stores the value as current. -/
def Watcher.update_infallible {α : Type} (w : Watcher α) (v : α) : Watcher α :=
  match w.pair with
  | none => ⟨some ⟨v, v⟩⟩
  | some p => ⟨some ⟨p.current, v⟩⟩

/-- The current value held by a watcher, when defined. -/
def Watcher.current {α : Type} (w : Watcher α) : Option α :=
  Option.map Pair.current w.pair

/-- The configuration flags: a global auto-start flag plus one enable flag
per splittable level, as registered in the Settings struct of src/lib.rs. -/
structure Settings where
  start : Bool
  buccaneer_beach : Bool
  corsair_cove : Bool
  crazy_cannonade : Bool
  hms_windbag : Bool
  crisis_cavern : Bool
  manic_mines : Bool
  anubis_rex : Bool
  space_race : Bool
  far_out : Bool
  gimme_space : Bool
  king_galaxian : Bool
  clowning_around : Bool
  barrel_blast : Bool
  barrel_dizzy : Bool
  clown_prix : Bool
  perilous_pipes : Bool
  under_pressure : Bool
  down_the_tubes : Bool
  krome_keeper : Bool
  ghostly_garden : Bool
  creepy_catacombs : Bool
  grave_danger : Bool
  toc_man_lair : Bool
deriving Repr, DecidableEq

/-- The watcher set: one watcher per tracked memory quantity. -/
structure Watchers where
  is_loading : Watcher Bool
  level_id : Watcher Nat
  level_id_unfiltered : Watcher Nat
  tocman_qte : Watcher Bool
deriving Repr, DecidableEq

/-- The raw reads of one tick, each none when the address is unresolved or
the read failed this tick. is_loading is the boolean processing flag,
is_loading_2 the u64 loadScr counter, level_id the raw u32 level id,
tocman_qte the boss QTE success flag. -/
structure Reads where
  is_loading : Option Bool
  is_loading_2 : Option Nat
  level_id : Option Nat
  tocman_qte : Option Bool
deriving Repr, DecidableEq

/-- Placeholder for the resolved memory addresses; the decision layer never
inspects it. -/
structure Memory where
deriving Repr, DecidableEq

/-- The per-tick update step (update_loop in src/lib.rs): feed every watcher
exactly once, with a failed read defaulting to false respectively 0, the
loading flag the OR of its two sources, and the filtered level id accepting
the raw value only inside (100, 604]. -/
def update_loop (r : Reads) (watchers : Watchers) : Watchers :=
  let cur_level := r.level_id.getD 0
  { is_loading := watchers.is_loading.update_infallible
      (r.is_loading.getD false || decide (r.is_loading_2.getD 0 ≠ 0))
    level_id := watchers.level_id.update_infallible
      (if 100 < cur_level ∧ cur_level ≤ 604 then cur_level
       else
         match watchers.level_id.pair with
         | some x => x.current
         | none => 101)
    level_id_unfiltered := watchers.level_id_unfiltered.update_infallible cur_level
    tocman_qte := watchers.tocman_qte.update_infallible (r.tocman_qte.getD false) }

/-- The auto-start predicate (start in src/lib.rs). -/
def start (watchers : Watchers) (settings : Settings) : Bool :=
  if !settings.start then false
  else
    (match watchers.level_id_unfiltered.pair with
      | some val => decide (val.current = 4)
      | none => false)
    && (match watchers.is_loading.pair with
      | some val => val.changed_to true
      | none => false)

/-- The per-level enable flag selected by a filtered level code: the match
inside the split predicate of src/lib.rs, with codes outside the known set
never splitting. -/
def level_flag (settings : Settings) (level : Nat) : Bool :=
  match level with
  | 101 => settings.buccaneer_beach
  | 102 => settings.corsair_cove
  | 103 => settings.crazy_cannonade
  | 104 => settings.hms_windbag
  | 201 => settings.crisis_cavern
  | 202 => settings.manic_mines
  | 203 => settings.anubis_rex
  | 301 => settings.space_race
  | 302 => settings.far_out
  | 303 => settings.gimme_space
  | 304 => settings.king_galaxian
  | 401 => settings.clowning_around
  | 402 => settings.barrel_blast
  | 403 => settings.barrel_dizzy
  | 404 => settings.clown_prix
  | 501 => settings.perilous_pipes
  | 502 => settings.under_pressure
  | 503 => settings.down_the_tubes
  | 504 => settings.krome_keeper
  | 601 => settings.ghostly_garden
  | 602 => settings.creepy_catacombs
  | 603 => settings.grave_danger
  | 604 => settings.toc_man_lair
  | _ => false

/-- The split predicate (split in src/lib.rs): the level-transition
condition first, and only when it fails the final-boss condition. -/
def split (watchers : Watchers) (settings : Settings) : Bool :=
  match watchers.level_id_unfiltered.pair with
  | none => false
  | some level_id_unfiltered =>
    match watchers.level_id.pair with
    | none => false
    | some level_id =>
      if level_id_unfiltered.changed_to 1
          && (decide (level_id_unfiltered.old = 3)
              || decide (1000 < level_id_unfiltered.old)) then
        level_flag settings level_id.current
      else
        decide (level_id_unfiltered.current = 604)
          && !level_id_unfiltered.changed
          && settings.toc_man_lair
          && (match watchers.tocman_qte.pair with
              | some val => val.changed_to true
              | none => false)

/-- The reset predicate (reset in src/lib.rs): constantly false. -/
def reset (_watchers : Watchers) (_settings : Settings) : Bool :=
  false

/-- The loading query (is_loading in src/lib.rs): the loading watcher's
current value when defined. -/
def is_loading (watchers : Watchers) (_settings : Settings) : Option Bool :=
  match watchers.is_loading.pair with
  | some pair => some pair.current
  | none => none

/-- The game-time query (game_time in src/lib.rs): never defined; the
duration is modelled as an integer. -/
def game_time (_watchers : Watchers) (_settings : Settings) (_addresses : Memory) : Option Int :=
  none

/-- The level-transition pattern of the split predicate as a standalone
test on the watcher set. -/
def transition_pattern (watchers : Watchers) : Bool :=
  match watchers.level_id_unfiltered.pair with
  | some pu => pu.changed_to 1 && (decide (pu.old = 3) || decide (1000 < pu.old))
  | none => false

/-- The level-transition split condition as an independent predicate:
the transition pattern together with the per-level flag lookup. -/
def cond_level_transition (watchers : Watchers) (settings : Settings) : Bool :=
  match watchers.level_id_unfiltered.pair, watchers.level_id.pair with
  | some pu, some pf =>
      (pu.changed_to 1 && (decide (pu.old = 3) || decide (1000 < pu.old)))
        && level_flag settings pf.current
  | _, _ => false

/-- The final-boss split condition as an independent predicate. -/
def cond_final_boss (watchers : Watchers) (settings : Settings) : Bool :=
  match watchers.level_id_unfiltered.pair, watchers.level_id.pair with
  | some pu, some _ =>
      decide (pu.current = 604) && !pu.changed && settings.toc_man_lair
        && (match watchers.tocman_qte.pair with
            | some pq => pq.changed_to true
            | none => false)
  | _, _ => false

/-- The level codes carrying a per-level flag in the split lookup. -/
def valid_codes : List Nat :=
  [101, 102, 103, 104, 201, 202, 203, 301, 302, 303, 304, 401, 402, 403, 404,
   501, 502, 503, 504, 601, 602, 603, 604]

/-- The watcher set of a fresh process-attachment session: all empty. -/
def init_watchers : Watchers :=
  ⟨⟨none⟩, ⟨none⟩, ⟨none⟩, ⟨none⟩⟩

/-- Run the update step over a whole sequence of per-tick reads. -/
def run_updates (reads : List Reads) (watchers : Watchers) : Watchers :=
  reads.foldl (fun acc r => update_loop r acc) watchers

/-- A configuration with every flag enabled (the default registration). -/
def s_all : Settings :=
  ⟨true, true, true, true, true, true, true, true, true, true, true, true,
   true, true, true, true, true, true, true, true, true, true, true, true⟩

/-- A watcher state on the tick of the scenario where the unfiltered level
id transitions 1001 to 1 while the filtered level id holds 102. -/
def w_corsair : Watchers :=
  ⟨⟨some ⟨false, true⟩⟩, ⟨some ⟨102, 102⟩⟩, ⟨some ⟨1001, 1⟩⟩, ⟨some ⟨false, false⟩⟩⟩

/-- A watcher state on the tick of the final-boss scenario: the unfiltered
level id steady at 604 and the QTE flag transitioning false to true. -/
def w_boss : Watchers :=
  ⟨⟨some ⟨false, false⟩⟩, ⟨some ⟨604, 604⟩⟩, ⟨some ⟨604, 604⟩⟩, ⟨some ⟨false, true⟩⟩⟩

/-- A tick on which every read fails. -/
def r_none : Reads :=
  ⟨none, none, none, none⟩

/-- A tick reading level id 350 with both loading sources and the QTE flag
read successfully. -/
def r_mid : Reads :=
  ⟨some false, some 0, some 350, some false⟩

theorem update_infallible_current {α : Type} (w : Watcher α) (v : α) :
    (w.update_infallible v).current = some v := by
  unfold Watcher.update_infallible Watcher.current
  cases w.pair <;> rfl

theorem update_infallible_isSome {α : Type} (w : Watcher α) (v : α) :
    (w.update_infallible v).pair.isSome = true := by
  unfold Watcher.update_infallible
  cases w.pair <;> rfl

/-- C8: should_reset returns false for every watcher state and every
configuration. -/
theorem reset_always_false (w : Watchers) (s : Settings) :
    reset w s = false :=
  rfl

/-- C8 witness: should_reset is false on a concrete state. -/
theorem reset_always_false_witness :
    reset w_boss s_all = false :=
  reset_always_false w_boss s_all

/-- C10: is_loading, reset and game_time do not depend on the
configuration; game_time is always none and is_loading returns the loading
watcher's current value exactly when that watcher is defined. -/
theorem observers_config_independent (w : Watchers) (m : Memory) (s1 s2 : Settings) :
    is_loading w s1 = is_loading w s2 ∧ reset w s1 = reset w s2 ∧
      game_time w s1 m = game_time w s2 m ∧ game_time w s1 m = none ∧
      is_loading w s1 = Option.map Pair.current w.is_loading.pair := by
  refine ⟨rfl, rfl, rfl, rfl, ?_⟩
  unfold is_loading
  cases w.is_loading.pair <;> rfl

/-- C10 witness: the configuration independence at a concrete state and two
distinct configurations. -/
theorem observers_config_independent_witness :
    is_loading w_boss s_all = is_loading w_boss ⟨false, false, false, false, false,
        false, false, false, false, false, false, false, false, false, false, false,
        false, false, false, false, false, false, false, false⟩ ∧
      reset w_boss s_all = reset w_boss ⟨false, false, false, false, false,
        false, false, false, false, false, false, false, false, false, false, false,
        false, false, false, false, false, false, false, false⟩ ∧
      game_time w_boss s_all ⟨⟩ = game_time w_boss ⟨false, false, false, false, false,
        false, false, false, false, false, false, false, false, false, false, false,
        false, false, false, false, false, false, false, false⟩ ⟨⟩ ∧
      game_time w_boss s_all ⟨⟩ = none ∧
      is_loading w_boss s_all = Option.map Pair.current w_boss.is_loading.pair :=
  observers_config_independent w_boss ⟨⟩ s_all _

/-- C3: should_start is true iff the auto-start flag is enabled, the
unfiltered level id is defined with current value 4, and the loading flag
just transitioned to true this tick; it is false whenever either watcher is
undefined. -/
theorem start_iff (w : Watchers) (s : Settings) :
    (start w s = true ↔ s.start = true ∧
      (∃ pu, w.level_id_unfiltered.pair = some pu ∧ pu.current = 4) ∧
      (∃ pl, w.is_loading.pair = some pl ∧ pl.changed_to true = true)) ∧
    (w.level_id_unfiltered.pair = none → start w s = false) ∧
    (w.is_loading.pair = none → start w s = false) := by
  unfold start
  cases hu : w.level_id_unfiltered.pair <;> cases hl : w.is_loading.pair <;>
    cases hs : s.start <;> simp_all

/-- C3 witness: the start characterization at the tick where the loading
flag transitions to true on the title screen. -/
theorem start_iff_witness :
    (start ⟨⟨some ⟨false, true⟩⟩, ⟨some ⟨101, 101⟩⟩, ⟨some ⟨4, 4⟩⟩, ⟨some ⟨false, false⟩⟩⟩
        s_all = true ↔ s_all.start = true ∧
      (∃ pu, (⟨⟨some ⟨false, true⟩⟩, ⟨some ⟨101, 101⟩⟩, ⟨some ⟨4, 4⟩⟩,
          ⟨some ⟨false, false⟩⟩⟩ : Watchers).level_id_unfiltered.pair = some pu ∧
        pu.current = 4) ∧
      (∃ pl, (⟨⟨some ⟨false, true⟩⟩, ⟨some ⟨101, 101⟩⟩, ⟨some ⟨4, 4⟩⟩,
          ⟨some ⟨false, false⟩⟩⟩ : Watchers).is_loading.pair = some pl ∧
        pl.changed_to true = true)) ∧
    ((⟨⟨some ⟨false, true⟩⟩, ⟨some ⟨101, 101⟩⟩, ⟨some ⟨4, 4⟩⟩,
        ⟨some ⟨false, false⟩⟩⟩ : Watchers).level_id_unfiltered.pair = none →
      start ⟨⟨some ⟨false, true⟩⟩, ⟨some ⟨101, 101⟩⟩, ⟨some ⟨4, 4⟩⟩,
        ⟨some ⟨false, false⟩⟩⟩ s_all = false) ∧
    ((⟨⟨some ⟨false, true⟩⟩, ⟨some ⟨101, 101⟩⟩, ⟨some ⟨4, 4⟩⟩,
        ⟨some ⟨false, false⟩⟩⟩ : Watchers).is_loading.pair = none →
      start ⟨⟨some ⟨false, true⟩⟩, ⟨some ⟨101, 101⟩⟩, ⟨some ⟨4, 4⟩⟩,
        ⟨some ⟨false, false⟩⟩⟩ s_all = false) :=
  start_iff ⟨⟨some ⟨false, true⟩⟩, ⟨some ⟨101, 101⟩⟩, ⟨some ⟨4, 4⟩⟩,
    ⟨some ⟨false, false⟩⟩⟩ s_all

/-- C9: immediately after the first update step of a fresh session,
should_start is false for every read and every configuration, because the
first update of a watcher seeds old and current with the same value. -/
theorem start_first_tick_false (r : Reads) (s : Settings) :
    start (update_loop r init_watchers) s = false := by
  have hb : ∀ b : Bool, Pair.changed_to ⟨b, b⟩ true = false := by decide
  unfold start update_loop init_watchers Watcher.update_infallible
  simp [hb]

/-- C9 witness: should_start is false right after the first update step on
a tick where every read fails. -/
theorem start_first_tick_false_witness :
    start (update_loop r_none init_watchers) s_all = false :=
  start_first_tick_false r_none s_all

theorem level_flag_outside (s : Settings) (c : Nat) (h : c ∉ valid_codes) :
    level_flag s c = false := by
  unfold level_flag
  split <;> simp_all [valid_codes]

/-- C1 (amended): when the level-transition pattern holds, should_split
returns the per-level flag selected by the current filtered level id under
the fixed one-to-one 23-entry mapping, and is false when the filtered level
id is outside the 23 known codes. -/
theorem split_level_transition_flag (w : Watchers) (s : Settings) (pu pf : Pair Nat)
    (hu : w.level_id_unfiltered.pair = some pu)
    (hf : w.level_id.pair = some pf)
    (hpat : pu.changed_to 1 = true ∧ (pu.old = 3 ∨ 1000 < pu.old)) :
    split w s = level_flag s pf.current ∧
      (pf.current ∉ valid_codes → split w s = false) ∧
      valid_codes.length = 23 := by
  have hmain : split w s = level_flag s pf.current := by
    unfold split
    rw [hu, hf]
    have hc : (pu.changed_to 1
        && (decide (pu.old = 3) || decide (1000 < pu.old))) = true := by
      rcases hpat with ⟨h1, h2⟩
      rcases h2 with h2 | h2 <;> simp [h1, h2]
    simp [hc]
  refine ⟨hmain, ?_, rfl⟩
  intro hout
  rw [hmain]
  exact level_flag_outside s pf.current hout

/-- C1 witness: the scenario where the filtered level id is 102 and the
unfiltered level id transitions 1001 to 1. -/
theorem split_level_transition_flag_witness :
    w_corsair.level_id_unfiltered.pair = some ⟨1001, 1⟩ ∧
    w_corsair.level_id.pair = some ⟨102, 102⟩ ∧
    (Pair.changed_to ⟨1001, 1⟩ 1 = true ∧ ((1001 : Nat) = 3 ∨ 1000 < 1001)) ∧
    (split w_corsair s_all = level_flag s_all (Pair.current ⟨102, 102⟩) ∧
      (Pair.current (⟨102, 102⟩ : Pair Nat) ∉ valid_codes →
        split w_corsair s_all = false) ∧
      valid_codes.length = 23) :=
  ⟨by decide, by decide, by decide,
    split_level_transition_flag w_corsair s_all ⟨1001, 1⟩ ⟨102, 102⟩ (by decide)
      (by decide) (by decide)⟩

set_option maxRecDepth 8000

/-- C1 counterexample: the per-level mapping does not have 24 entries; with
every flag enabled, exactly 23 level codes select a flag in the split
lookup. -/
theorem level_flag_mapping_not_24 :
    (((List.range 605).filter fun c => level_flag s_all c).length = 23) ∧
      ¬(((List.range 605).filter fun c => level_flag s_all c).length = 24) := by
  constructor
  · decide
  · decide

/-- C2: when the level-transition pattern does not hold, should_split is
true iff the unfiltered level id is steady at 604, the toc_man_lair flag is
enabled and the QTE flag just transitioned to true this tick; it is false
whenever any of the three watchers is undefined. -/
theorem split_final_boss_iff (w : Watchers) (s : Settings)
    (h : transition_pattern w = false) :
    (split w s = true ↔
      ∃ pu pf pq, w.level_id_unfiltered.pair = some pu ∧ w.level_id.pair = some pf ∧
        w.tocman_qte.pair = some pq ∧ pu.current = 604 ∧ pu.changed = false ∧
        s.toc_man_lair = true ∧ pq.changed_to true = true) ∧
    (w.level_id_unfiltered.pair = none → split w s = false) ∧
    (w.level_id.pair = none → split w s = false) ∧
    (w.tocman_qte.pair = none → split w s = false) := by
  unfold transition_pattern at h
  unfold split
  cases hu : w.level_id_unfiltered.pair with
  | none => simp_all
  | some pu =>
    cases hf : w.level_id.pair with
    | none => simp_all
    | some pf =>
      cases hq : w.tocman_qte.pair with
      | none => simp_all
      | some pq =>
        rw [hu] at h
        simp at h
        simp [hu, hf, hq]
        have hneg : ¬(pu.changed_to 1 = true ∧ (pu.old = 3 ∨ 1000 < pu.old)) := by
          rintro ⟨h1, h2⟩
          rcases h h1 with ⟨h3, h4⟩
          rcases h2 with h2 | h2
          · exact h3 h2
          · omega
        rw [if_neg hneg]
        tauto

/-- C2 witness: the final-boss scenario with the unfiltered level id steady
at 604 and the QTE flag transitioning false to true. -/
theorem split_final_boss_iff_witness :
    transition_pattern w_boss = false ∧
    ((split w_boss s_all = true ↔
      ∃ pu pf pq, w_boss.level_id_unfiltered.pair = some pu ∧
        w_boss.level_id.pair = some pf ∧
        w_boss.tocman_qte.pair = some pq ∧ pu.current = 604 ∧ pu.changed = false ∧
        s_all.toc_man_lair = true ∧ pq.changed_to true = true) ∧
    (w_boss.level_id_unfiltered.pair = none → split w_boss s_all = false) ∧
    (w_boss.level_id.pair = none → split w_boss s_all = false) ∧
    (w_boss.tocman_qte.pair = none → split w_boss s_all = false)) :=
  ⟨by decide, split_final_boss_iff w_boss s_all (by decide)⟩

/-- C4: the ordered first-match evaluation of the two split conditions
equals their plain disjunction, and the two conditions are never
simultaneously true. -/
theorem split_eq_disjunction (w : Watchers) (s : Settings) :
    split w s = (cond_level_transition w s || cond_final_boss w s) ∧
      (cond_level_transition w s && cond_final_boss w s) = false := by
  unfold split cond_level_transition cond_final_boss
  cases hu : w.level_id_unfiltered.pair with
  | none => simp
  | some pu =>
    cases hf : w.level_id.pair with
    | none => simp
    | some pf =>
      have key : pu.changed_to 1 = true → decide (pu.current = 604) = false := by
        intro h
        simp [Pair.changed_to] at h
        rw [h.2]
        decide
      cases hc : pu.changed_to 1 <;>
        cases hd : (decide (pu.old = 3) || decide (1000 < pu.old)) <;> simp_all

/-- C4 witness: the disjunction equivalence at the final-boss scenario
state. -/
theorem split_eq_disjunction_witness :
    split w_boss s_all = (cond_level_transition w_boss s_all || cond_final_boss w_boss s_all) ∧
      (cond_level_transition w_boss s_all && cond_final_boss w_boss s_all) = false :=
  split_eq_disjunction w_boss s_all

/-- C5: the update step accepts an in-range raw level id reading as the new
filtered current value; for an out-of-range reading it keeps the previous
current value, or seeds 101 when no previous value exists. -/
theorem update_level_filter (r : Reads) (w : Watchers) (raw : Nat)
    (h : r.level_id = some raw) :
    (100 < raw ∧ raw ≤ 604 → ((update_loop r w).level_id).current = some raw) ∧
    (¬(100 < raw ∧ raw ≤ 604) →
      (∀ p, w.level_id.pair = some p →
        ((update_loop r w).level_id).current = some p.current) ∧
      (w.level_id.pair = none → ((update_loop r w).level_id).current = some 101)) := by
  constructor
  · intro hin
    simp [update_loop, h, if_pos hin, update_infallible_current]
  · intro hout
    constructor
    · intro p hp
      simp [update_loop, h, if_neg hout, hp, update_infallible_current]
    · intro hp
      simp [update_loop, h, if_neg hout, hp, update_infallible_current]

/-- C5 witness: an in-range reading of 350 is accepted as the new filtered
current value. -/
theorem update_level_filter_witness :
    r_mid.level_id = some 350 ∧
    ((100 < 350 ∧ 350 ≤ 604 →
        ((update_loop r_mid w_corsair).level_id).current = some 350) ∧
      (¬(100 < 350 ∧ 350 ≤ 604) →
        (∀ p, w_corsair.level_id.pair = some p →
          ((update_loop r_mid w_corsair).level_id).current = some p.current) ∧
        (w_corsair.level_id.pair = none →
          ((update_loop r_mid w_corsair).level_id).current = some 101))) :=
  ⟨by decide, update_level_filter r_mid w_corsair 350 (by decide)⟩

theorem level_id_range_step (r : Reads) (w : Watchers)
    (h : ∀ p, w.level_id.pair = some p → 101 ≤ p.current ∧ p.current ≤ 604) :
    ∀ p, (update_loop r w).level_id.pair = some p →
      101 ≤ p.current ∧ p.current ≤ 604 := by
  intro p hp
  by_cases hc : 100 < r.level_id.getD 0 ∧ r.level_id.getD 0 ≤ 604
  · have hcur : (update_loop r w).level_id.current = some (r.level_id.getD 0) := by
      simp [update_loop, if_pos hc, update_infallible_current]
    unfold Watcher.current at hcur
    rw [hp] at hcur
    simp at hcur
    omega
  · cases hq : w.level_id.pair with
    | none =>
      have hcur : (update_loop r w).level_id.current = some 101 := by
        simp [update_loop, if_neg hc, hq, update_infallible_current]
      unfold Watcher.current at hcur
      rw [hp] at hcur
      simp at hcur
      omega
    | some q =>
      have hcur : (update_loop r w).level_id.current = some q.current := by
        simp [update_loop, if_neg hc, hq, update_infallible_current]
      unfold Watcher.current at hcur
      rw [hp] at hcur
      simp at hcur
      have hb := h q hq
      omega

theorem level_id_range_run (reads : List Reads) (w : Watchers)
    (h : ∀ p, w.level_id.pair = some p → 101 ≤ p.current ∧ p.current ≤ 604) :
    ∀ p, (run_updates reads w).level_id.pair = some p →
      101 ≤ p.current ∧ p.current ≤ 604 := by
  induction reads generalizing w with
  | nil => exact h
  | cons r rs ih => exact ih (update_loop r w) (level_id_range_step r w h)

theorem level_id_seed_step (r : Reads) (w : Watchers)
    (hr : ¬(100 < r.level_id.getD 0 ∧ r.level_id.getD 0 ≤ 604))
    (h : ∀ p, w.level_id.pair = some p → p.current = 101) :
    ∀ p, (update_loop r w).level_id.pair = some p → p.current = 101 := by
  intro p hp
  cases hq : w.level_id.pair with
  | none =>
    have hcur : (update_loop r w).level_id.current = some 101 := by
      simp [update_loop, if_neg hr, hq, update_infallible_current]
    unfold Watcher.current at hcur
    rw [hp] at hcur
    simp at hcur
    omega
  | some q =>
    have hcur : (update_loop r w).level_id.current = some q.current := by
      simp [update_loop, if_neg hr, hq, update_infallible_current]
    unfold Watcher.current at hcur
    rw [hp] at hcur
    simp at hcur
    have hb := h q hq
    omega

theorem level_id_seed_run (reads : List Reads) (w : Watchers)
    (hr : ∀ r ∈ reads, ¬(100 < r.level_id.getD 0 ∧ r.level_id.getD 0 ≤ 604))
    (h : ∀ p, w.level_id.pair = some p → p.current = 101) :
    ∀ p, (run_updates reads w).level_id.pair = some p → p.current = 101 := by
  induction reads generalizing w with
  | nil => exact h
  | cons r rs ih =>
    exact ih (update_loop r w)
      (fun q hq => hr q (List.mem_cons_of_mem r hq))
      (level_id_seed_step r w (hr r (List.mem_cons_self r rs)) h)

/-- C6: from a fresh watcher set, after any sequence of per-tick reads the
filtered level id, whenever defined, lies in 101..604, and equals the seed
101 when no in-range raw value was ever read. -/
theorem level_id_range_invariant (reads : List Reads) :
    (∀ p, (run_updates reads init_watchers).level_id.pair = some p →
      101 ≤ p.current ∧ p.current ≤ 604) ∧
    ((∀ r ∈ reads, ¬(100 < r.level_id.getD 0 ∧ r.level_id.getD 0 ≤ 604)) →
      ∀ p, (run_updates reads init_watchers).level_id.pair = some p →
        p.current = 101) := by
  constructor
  · exact level_id_range_run reads init_watchers
      (by intro p hp; simp [init_watchers] at hp)
  · intro hr
    exact level_id_seed_run reads init_watchers hr
      (by intro p hp; simp [init_watchers] at hp)

/-- C6 witness: the invariant after one tick on which every read fails. -/
theorem level_id_range_invariant_witness :
    (∀ p, (run_updates [r_none] init_watchers).level_id.pair = some p →
      101 ≤ p.current ∧ p.current ≤ 604) ∧
    ((∀ r ∈ [r_none], ¬(100 < r.level_id.getD 0 ∧ r.level_id.getD 0 ≤ 604)) →
      ∀ p, (run_updates [r_none] init_watchers).level_id.pair = some p →
        p.current = 101) :=
  level_id_range_invariant [r_none]

/-- C7: a failed memory read never aborts the update step: failed boolean
reads default to false and a failed level read to 0 (which fails the filter
so the filtered watcher holds its prior value or the seed), the loading
watcher is fed the OR of its two sources, and all four watchers are defined
after every tick. -/
theorem update_loop_failed_reads (r : Reads) (w : Watchers) :
    ((update_loop r w).is_loading).current
        = some (r.is_loading.getD false || decide (r.is_loading_2.getD 0 ≠ 0)) ∧
    (r.is_loading = none → r.is_loading_2 = none →
      ((update_loop r w).is_loading).current = some false) ∧
    ((update_loop r w).tocman_qte).current = some (r.tocman_qte.getD false) ∧
    ((update_loop r w).level_id_unfiltered).current = some (r.level_id.getD 0) ∧
    (r.level_id = none →
      (∀ p, w.level_id.pair = some p →
        ((update_loop r w).level_id).current = some p.current) ∧
      (w.level_id.pair = none → ((update_loop r w).level_id).current = some 101)) ∧
    ((update_loop r w).is_loading).pair.isSome = true ∧
    ((update_loop r w).level_id).pair.isSome = true ∧
    ((update_loop r w).level_id_unfiltered).pair.isSome = true ∧
    ((update_loop r w).tocman_qte).pair.isSome = true := by
  refine ⟨?_, ?_, ?_, ?_, ?_, ?_, ?_, ?_, ?_⟩
  · simp [update_loop, update_infallible_current]
  · intro h1 h2
    simp [update_loop, h1, h2, update_infallible_current]
  · simp [update_loop, update_infallible_current]
  · simp [update_loop, update_infallible_current]
  · intro h
    have hc : ¬(100 < r.level_id.getD 0 ∧ r.level_id.getD 0 ≤ 604) := by
      rw [h]
      simp
    constructor
    · intro p hp
      simp [update_loop, if_neg hc, hp, update_infallible_current]
    · intro hp
      simp [update_loop, if_neg hc, hp, update_infallible_current]
  · simp [update_loop, update_infallible_isSome]
  · simp [update_loop, update_infallible_isSome]
  · simp [update_loop, update_infallible_isSome]
  · simp [update_loop, update_infallible_isSome]

/-- C7 witness: the failed-read behavior on a tick where every read fails,
starting from the Corsair scenario state. -/
theorem update_loop_failed_reads_witness :
    ((update_loop r_none w_corsair).is_loading).current
        = some (r_none.is_loading.getD false
            || decide (r_none.is_loading_2.getD 0 ≠ 0)) ∧
    (r_none.is_loading = none → r_none.is_loading_2 = none →
      ((update_loop r_none w_corsair).is_loading).current = some false) ∧
    ((update_loop r_none w_corsair).tocman_qte).current
        = some (r_none.tocman_qte.getD false) ∧
    ((update_loop r_none w_corsair).level_id_unfiltered).current
        = some (r_none.level_id.getD 0) ∧
    (r_none.level_id = none →
      (∀ p, w_corsair.level_id.pair = some p →
        ((update_loop r_none w_corsair).level_id).current = some p.current) ∧
      (w_corsair.level_id.pair = none →
        ((update_loop r_none w_corsair).level_id).current = some 101)) ∧
    ((update_loop r_none w_corsair).is_loading).pair.isSome = true ∧
    ((update_loop r_none w_corsair).level_id).pair.isSome = true ∧
    ((update_loop r_none w_corsair).level_id_unfiltered).pair.isSome = true ∧
    ((update_loop r_none w_corsair).tocman_qte).pair.isSome = true :=
  update_loop_failed_reads r_none w_corsair

end PacmanWorld
